import Mathlib

/-!
# Verification of the SX127x HAL base layer (`src/base.rs`)

Shallow embedding of the radio HAL shim:

* `HalError` embeds the unified three-origin error enum.
* `Hal` embeds the capability trait: a backend supplies `wait_busy`,
  `prefix_read` and `prefix_write` as explicit state-passing functions; the
  derived default methods (`read_regs`, `write_regs`, `write_buff`,
  `read_buff`, `read_reg`, `write_reg`, `update_reg`) are translated from the
  trait's default bodies, generic over the backend.
* `Base` embeds the concrete SPI adapter.  Its peripherals (chip-select pin,
  shutdown pin, SPI bus, delay source) are modelled by an environment `Env`
  that fixes the outcome of every peripheral call as a function of the call
  history; each operation threads an event trace (`List Ev`) recording every
  peripheral call it makes, so that ordering and pairing properties are
  statements about the trace.  Bytes are `Nat` with `&&&`/`|||`/`^^^ 0xFF`
  for the u8 bit operations (all byte values stay below 256 so no overflow
  arises).  The full-duplex `transfer` is modelled as returning the read-side
  bytes, which replace the caller's buffer (the embedded-hal contract that
  `transfer` yields as many bytes as were written).
-/

/-- The unified error enum `HalError<Spi, Pin, Delay>`. -/
inductive HalError (S P D : Type) where
  | Spi (e : S)
  | Pin (e : P)
  | Delay (e : D)
deriving DecidableEq

/-- Whether an error is the timing-origin variant. -/
def HalError.isDelay {S P D : Type} : HalError S P D → Bool
  | .Delay _ => true
  | _ => false

/-- The capability interface: the three raw primitives a backend must supply,
as explicit state-passing functions over a backend state `σ` with error `ε`.
`prefix_read` returns the operation result together with the new contents of
the caller's buffer. -/
structure Hal (σ ε : Type) where
  wait_busy : σ → Except ε Unit × σ
  prefix_read : List Nat → List Nat → σ → (Except ε Unit × List Nat) × σ
  prefix_write : List Nat → List Nat → σ → Except ε Unit × σ

namespace Hal

variable {σ ε : Type}

/-- Default method `read_regs`: busy-wait, prefixed read with the direction
bit cleared (`reg & 0x7F`), busy-wait again, return the read outcome. -/
def read_regs (H : Hal σ ε) (reg : Nat) (data : List Nat) (s : σ) :
    (Except ε Unit × List Nat) × σ :=
  let out_buf : List Nat := [reg &&& 0x7F]
  match H.wait_busy s with
  | (Except.error e, s1) => ((Except.error e, data), s1)
  | (Except.ok _, s1) =>
    match H.prefix_read out_buf data s1 with
    | ((r, d1), s2) =>
      match H.wait_busy s2 with
      | (Except.error e, s3) => ((Except.error e, d1), s3)
      | (Except.ok _, s3) => ((r, d1), s3)

/-- Default method `write_regs`: busy-wait, prefixed write with the direction
bit set (`reg | 0x80`), busy-wait again, return the write outcome. -/
def write_regs (H : Hal σ ε) (reg : Nat) (data : List Nat) (s : σ) :
    Except ε Unit × σ :=
  let out_buf : List Nat := [reg ||| 0x80]
  match H.wait_busy s with
  | (Except.error e, s1) => (Except.error e, s1)
  | (Except.ok _, s1) =>
    match H.prefix_write out_buf data s1 with
    | (r, s2) =>
      match H.wait_busy s2 with
      | (Except.error e, s3) => (Except.error e, s3)
      | (Except.ok _, s3) => (r, s3)

/-- Default method `write_buff`: FIFO write with fixed op-code `0x00 | 0x80`. -/
def write_buff (H : Hal σ ε) (data : List Nat) (s : σ) : Except ε Unit × σ :=
  let out_buf : List Nat := [0x00 ||| 0x80]
  match H.wait_busy s with
  | (Except.error e, s1) => (Except.error e, s1)
  | (Except.ok _, s1) =>
    match H.prefix_write out_buf data s1 with
    | (r, s2) =>
      match H.wait_busy s2 with
      | (Except.error e, s3) => (Except.error e, s3)
      | (Except.ok _, s3) => (r, s3)

/-- Default method `read_buff`: FIFO read with fixed op-code `0x00`. -/
def read_buff (H : Hal σ ε) (data : List Nat) (s : σ) :
    (Except ε Unit × List Nat) × σ :=
  let out_buf : List Nat := [0x00]
  match H.wait_busy s with
  | (Except.error e, s1) => ((Except.error e, data), s1)
  | (Except.ok _, s1) =>
    match H.prefix_read out_buf data s1 with
    | ((r, d1), s2) =>
      match H.wait_busy s2 with
      | (Except.error e, s3) => ((Except.error e, d1), s3)
      | (Except.ok _, s3) => ((r, d1), s3)

/-- Default method `read_reg`: `read_regs` into a one-byte buffer `[0]`,
returning its first byte. -/
def read_reg (H : Hal σ ε) (reg : Nat) (s : σ) : Except ε Nat × σ :=
  match H.read_regs reg [0] s with
  | ((Except.error e, _), s1) => (Except.error e, s1)
  | ((Except.ok _, d), s1) => (Except.ok (d.headD 0), s1)

/-- Default method `write_reg`: `write_regs` from the one-byte buffer `[value]`. -/
def write_reg (H : Hal σ ε) (reg value : Nat) (s : σ) : Except ε Unit × σ :=
  match H.write_regs reg [value] s with
  | (Except.error e, s1) => (Except.error e, s1)
  | (Except.ok _, s1) => (Except.ok (), s1)

/-- Default method `update_reg`: read the current value, compute
`(existing & !mask) | (value & mask)` (with `!mask = mask ^^^ 0xFF` on u8),
write it back, return the written value. -/
def update_reg (H : Hal σ ε) (reg mask value : Nat) (s : σ) :
    Except ε Nat × σ :=
  match H.read_reg reg s with
  | (Except.error e, s1) => (Except.error e, s1)
  | (Except.ok existing, s1) =>
    let updated := (existing &&& (mask ^^^ 0xFF)) ||| (value &&& mask)
    match H.write_reg reg updated s1 with
    | (Except.error e, s2) => (Except.error e, s2)
    | (Except.ok _, s2) => (Except.ok updated, s2)

end Hal

/-- Peripheral events the `Base` adapter can emit, in the order it emits
them: chip-select pin drives, shutdown pin drives, SPI bus calls, delays. -/
inductive Ev where
  | csLow
  | csHigh
  | sdnLow
  | sdnHigh
  | spiWrite (data : List Nat)
  | spiTransfer (out : List Nat)
  | delayMs (ms : Nat)
  | delayUs (us : Nat)
deriving DecidableEq

/-- Predicate picking out chip-select assert events. -/
def Ev.isCsLow : Ev → Bool
  | .csLow => true
  | .csHigh => false
  | .sdnLow => false
  | .sdnHigh => false
  | .spiWrite _ => false
  | .spiTransfer _ => false
  | .delayMs _ => false
  | .delayUs _ => false

/-- Predicate picking out chip-select deassert events. -/
def Ev.isCsHigh : Ev → Bool
  | .csLow => false
  | .csHigh => true
  | .sdnLow => false
  | .sdnHigh => false
  | .spiWrite _ => false
  | .spiTransfer _ => false
  | .delayMs _ => false
  | .delayUs _ => false

/-- The behaviour of the adapter's peripherals: the outcome of each
peripheral call as a function of the call history (the trace so far), and,
for the SPI calls, of the bytes handed to the bus.  Quantifying over `Env`
quantifies over every possible success/failure interleaving. -/
structure Env (SpiE PinE : Type) where
  csLowRes : List Ev → Except PinE Unit
  csHighRes : List Ev → Except PinE Unit
  sdnLowRes : List Ev → Except PinE Unit
  sdnHighRes : List Ev → Except PinE Unit
  spiWriteRes : List Ev → List Nat → Except SpiE Unit
  spiTransferRes : List Ev → List Nat → Except SpiE (List Nat)

namespace Base

variable {SpiE PinE : Type}

/-- `self.cs.set_low()`: record the call, outcome given by the environment. -/
def csSetLow (env : Env SpiE PinE) (tr : List Ev) :
    Except PinE Unit × List Ev :=
  (env.csLowRes tr, tr ++ [Ev.csLow])

/-- `self.cs.set_high()`: record the call, outcome given by the environment. -/
def csSetHigh (env : Env SpiE PinE) (tr : List Ev) :
    Except PinE Unit × List Ev :=
  (env.csHighRes tr, tr ++ [Ev.csHigh])

/-- `self.sdn.set_low()`. -/
def sdnSetLow (env : Env SpiE PinE) (tr : List Ev) :
    Except PinE Unit × List Ev :=
  (env.sdnLowRes tr, tr ++ [Ev.sdnLow])

/-- `self.sdn.set_high()`. -/
def sdnSetHigh (env : Env SpiE PinE) (tr : List Ev) :
    Except PinE Unit × List Ev :=
  (env.sdnHighRes tr, tr ++ [Ev.sdnHigh])

/-- `self.spi.write(bytes)`. -/
def spiWrite (env : Env SpiE PinE) (bytes : List Nat) (tr : List Ev) :
    Except SpiE Unit × List Ev :=
  (env.spiWriteRes tr bytes, tr ++ [Ev.spiWrite bytes])

/-- `self.spi.transfer(bytes)`: full duplex, returns the read-side bytes. -/
def spiTransfer (env : Env SpiE PinE) (bytes : List Nat) (tr : List Ev) :
    Except SpiE (List Nat) × List Ev :=
  (env.spiTransferRes tr bytes, tr ++ [Ev.spiTransfer bytes])

/-- `Base::reset`: sdn low, `delay_ms(1)`, sdn high, `delay_ms(10)`; pin
failures are wrapped as `HalError::Pin` and abort via `?`.  The delays are
infallible (the `DelayMs` impl returns `()`). -/
def reset (env : Env SpiE PinE) (tr : List Ev) :
    Except (HalError SpiE PinE Unit) Unit × List Ev :=
  match sdnSetLow env tr with
  | (Except.error e, tr1) => (Except.error (HalError.Pin e), tr1)
  | (Except.ok _, tr1) =>
    let tr2 := tr1 ++ [Ev.delayMs 1]
    match sdnSetHigh env tr2 with
    | (Except.error e, tr3) => (Except.error (HalError.Pin e), tr3)
    | (Except.ok _, tr3) => (Except.ok (), tr3 ++ [Ev.delayMs 10])

/-- `Base::wait_busy`: unconditionally `Ok(())` (the documented no-op). -/
def wait_busy (tr : List Ev) :
    Except (HalError SpiE PinE Unit) Unit × List Ev :=
  (Except.ok (), tr)

/-- `Base::delay_ms`: forwards to the delay source, always `Ok(())`. -/
def delay_ms (ms : Nat) (tr : List Ev) :
    Except (HalError SpiE PinE Unit) Unit × List Ev :=
  (Except.ok (), tr ++ [Ev.delayMs ms])

/-- `Base::delay_us`: forwards to the delay source, always `Ok(())`. -/
def delay_us (us : Nat) (tr : List Ev) :
    Except (HalError SpiE PinE Unit) Unit × List Ev :=
  (Except.ok (), tr ++ [Ev.delayUs us])

/-- `Base::prefix_write`: assert CS (abort with `Pin` on failure); compute
`r = spi.write(pre).map(|_| spi.write(data))` (payload write only attempted
when the first write succeeded); deassert CS (abort with `Pin` on failure);
then map `r` to the result, both error shapes becoming `HalError::Spi`. -/
def prefix_write (env : Env SpiE PinE) (pre data : List Nat) (tr : List Ev) :
    Except (HalError SpiE PinE Unit) Unit × List Ev :=
  match csSetLow env tr with
  | (Except.error e, tr1) => (Except.error (HalError.Pin e), tr1)
  | (Except.ok _, tr1) =>
    let step : Except SpiE (Except SpiE Unit) × List Ev :=
      match spiWrite env pre tr1 with
      | (Except.error e, tr2) => (Except.error e, tr2)
      | (Except.ok _, tr2) =>
        match spiWrite env data tr2 with
        | (w2, tr3) => (Except.ok w2, tr3)
    match step with
    | (r, tr3) =>
      match csSetHigh env tr3 with
      | (Except.error e, tr4) => (Except.error (HalError.Pin e), tr4)
      | (Except.ok _, tr4) =>
        match r with
        | Except.ok (Except.ok _) => (Except.ok (), tr4)
        | Except.ok (Except.error e) => (Except.error (HalError.Spi e), tr4)
        | Except.error e => (Except.error (HalError.Spi e), tr4)

/-- `Base::prefix_read`: assert CS (abort with `Pin` on failure); compute
`r = spi.write(pre).map(|_| spi.transfer(write).map(|read| data.copy_from_slice(read)))`
where `write` is a copy of the caller's buffer (the outgoing half of the
full-duplex exchange) and the buffer is overwritten only when the transfer
succeeds; deassert CS (abort with `Pin` on failure); map `r` as in
`prefix_write`. -/
def prefix_read (env : Env SpiE PinE) (pre data : List Nat) (tr : List Ev) :
    (Except (HalError SpiE PinE Unit) Unit × List Nat) × List Ev :=
  match csSetLow env tr with
  | (Except.error e, tr1) => ((Except.error (HalError.Pin e), data), tr1)
  | (Except.ok _, tr1) =>
    let step : (Except SpiE (Except SpiE Unit) × List Nat) × List Ev :=
      match spiWrite env pre tr1 with
      | (Except.error e, tr2) => ((Except.error e, data), tr2)
      | (Except.ok _, tr2) =>
        match spiTransfer env data tr2 with
        | (Except.error e, tr3) => ((Except.ok (Except.error e), data), tr3)
        | (Except.ok read, tr3) => ((Except.ok (Except.ok ()), read), tr3)
    match step with
    | ((r, d1), tr3) =>
      match csSetHigh env tr3 with
      | (Except.error e, tr4) => ((Except.error (HalError.Pin e), d1), tr4)
      | (Except.ok _, tr4) =>
        match r with
        | Except.ok (Except.ok _) => ((Except.ok (), d1), tr4)
        | Except.ok (Except.error e) => ((Except.error (HalError.Spi e), d1), tr4)
        | Except.error e => ((Except.error (HalError.Spi e), d1), tr4)

end Base

/-! ## Concrete backends and environments used to instantiate the claims -/

/-- Store the bytes of a list at consecutive addresses of a byte-array
register store. -/
def storeBytes : (Nat → Nat) → Nat → List Nat → (Nat → Nat)
  | s, _, [] => s
  | s, addr, b :: rest => storeBytes (Function.update s addr b) (addr + 1) rest

/-- A mock backend whose register store is a simple byte array: a prefixed
write stores the payload at consecutive addresses starting at the address
encoded in the prefix byte (low 7 bits); a prefixed read returns the stored
bytes.  `wait_busy` always succeeds and nothing can fail (`ε = Empty`). -/
def mockHal : Hal (Nat → Nat) Empty where
  wait_busy s := (Except.ok (), s)
  prefix_read pre data s :=
    ((Except.ok (),
      (List.range data.length).map fun i => s (((pre.headD 0) &&& 0x7F) + i)), s)
  prefix_write pre data s :=
    (Except.ok (), storeBytes s ((pre.headD 0) &&& 0x7F) data)

/-- An observing backend that records every raw prefixed call it receives:
`(isWrite, prefix bytes, payload)`.  Used to state which framing prefix the
derived operations hand to the raw primitives. -/
def probeHal : Hal (List (Bool × List Nat × List Nat)) Empty where
  wait_busy s := (Except.ok (), s)
  prefix_read pre data s := ((Except.ok (), data), s ++ [(false, pre, data)])
  prefix_write pre data s := (Except.ok (), s ++ [(true, pre, data)])

/-- A backend whose first `wait_busy` succeeds and whose second fails with
error `7`, while every raw transaction fails with error `5`.  The state is
the number of calls made so far. -/
def cexWaitHal : Hal Nat Nat where
  wait_busy s := (if s = 0 then Except.ok () else Except.error 7, s + 1)
  prefix_read _ data s := ((Except.error 5, data), s + 1)
  prefix_write _ _ s := (Except.error 5, s + 1)

/-- An environment in which every peripheral call succeeds; the SPI transfer
reads back `0xEE` for every byte exchanged. -/
def okEnv : Env Nat Nat where
  csLowRes _ := Except.ok ()
  csHighRes _ := Except.ok ()
  sdnLowRes _ := Except.ok ()
  sdnHighRes _ := Except.ok ()
  spiWriteRes _ _ := Except.ok ()
  spiTransferRes _ data := Except.ok (data.map fun _ => 0xEE)

/-- An environment in which every SPI bus call fails with error `5` and
every pin call succeeds. -/
def spiFailEnv : Env Nat Nat where
  csLowRes _ := Except.ok ()
  csHighRes _ := Except.ok ()
  sdnLowRes _ := Except.ok ()
  sdnHighRes _ := Except.ok ()
  spiWriteRes _ _ := Except.error 5
  spiTransferRes _ _ := Except.error 5

/-- An environment in which every SPI bus call fails with error `5` and the
chip-select deassert fails with error `9` (assert succeeds). -/
def spiAndCsHighFailEnv : Env Nat Nat where
  csLowRes _ := Except.ok ()
  csHighRes _ := Except.error 9
  sdnLowRes _ := Except.ok ()
  sdnHighRes _ := Except.ok ()
  spiWriteRes _ _ := Except.error 5
  spiTransferRes _ _ := Except.error 5

/-- An environment in which the chip-select assert and the shutdown-pin
drive-low fail with error `3`; everything else succeeds. -/
def csLowFailEnv : Env Nat Nat where
  csLowRes _ := Except.error 3
  csHighRes _ := Except.ok ()
  sdnLowRes _ := Except.error 3
  sdnHighRes _ := Except.ok ()
  spiWriteRes _ _ := Except.ok ()
  spiTransferRes _ _ := Except.ok []

/-- An environment in which only the chip-select deassert fails (error `9`);
the SPI transfer reads back `0xEE` for every byte exchanged. -/
def csHighFailEnv : Env Nat Nat where
  csLowRes _ := Except.ok ()
  csHighRes _ := Except.error 9
  sdnLowRes _ := Except.ok ()
  sdnHighRes _ := Except.ok ()
  spiWriteRes _ _ := Except.ok ()
  spiTransferRes _ data := Except.ok (data.map fun _ => 0xEE)

/-! ## Bit-level helper lemmas (u8 facts used by the framing claims) -/

/-- On a 7-bit address, masking with `0x7F` is the identity. -/
theorem and127_of_le (a : Nat) (ha : a ≤ 127) : a &&& 127 = a := by
  have h : ∀ b : Fin 128, ((b : Nat) &&& 127) = (b : Nat) := by decide
  exact h ⟨a, by omega⟩

/-- On a 7-bit address, setting then clearing the direction bit is the
identity. -/
theorem or128_and127_of_le (a : Nat) (ha : a ≤ 127) : (a ||| 128) &&& 127 = a := by
  have h : ∀ b : Fin 128, (((b : Nat) ||| 128) &&& 127) = (b : Nat) := by decide
  exact h ⟨a, by omega⟩

set_option maxRecDepth 4096 in
/-- On any byte, `a | 0x80` equals `(a & 0x7F) | 0x80`: the write-direction
framing byte does not depend on the caller's top bit. -/
theorem or128_eq_and127_or128 (a : Nat) (ha : a ≤ 255) :
    a ||| 128 = (a &&& 127) ||| 128 := by
  have h : ∀ b : Fin 256, ((b : Nat) ||| 128) = (((b : Nat) &&& 127) ||| 128) := by decide
  exact h ⟨a, by omega⟩

/-! ## Claim theorems -/

/-- C1: for every call to `prefix_write` and `prefix_read` on the `Base`
adapter, once the chip-select assert (`set_low`) has succeeded, the deassert
(`set_high`) is invoked exactly once before the call returns — on the
success path and on every failure path — and the assert and deassert calls
are paired 1:1 per transaction (each trace delta holds exactly one `csLow`
and exactly one `csHigh`); when the assert itself fails, no deassert
happens. -/
theorem c1_cs_pairing (SpiE PinE : Type) (env : Env SpiE PinE)
    (pre data : List Nat) (tr : List Ev) :
    (env.csLowRes tr = Except.ok () →
      (((Base.prefix_write env pre data tr).2.drop tr.length).countP Ev.isCsLow = 1 ∧
       ((Base.prefix_write env pre data tr).2.drop tr.length).countP Ev.isCsHigh = 1) ∧
      (((Base.prefix_read env pre data tr).2.drop tr.length).countP Ev.isCsLow = 1 ∧
       ((Base.prefix_read env pre data tr).2.drop tr.length).countP Ev.isCsHigh = 1)) ∧
    (∀ e, env.csLowRes tr = Except.error e →
      (Base.prefix_write env pre data tr).2 = tr ++ [Ev.csLow] ∧
      (Base.prefix_read env pre data tr).2 = tr ++ [Ev.csLow]) := by
  constructor
  · intro h
    have W : ∀ p : Ev → Bool,
        ((Base.prefix_write env pre data tr).2.drop tr.length).countP p =
          (match env.spiWriteRes (tr ++ [Ev.csLow]) pre with
            | Except.error _ => [Ev.csLow, Ev.spiWrite pre, Ev.csHigh]
            | Except.ok _ => [Ev.csLow, Ev.spiWrite pre, Ev.spiWrite data, Ev.csHigh]).countP p := by
      intro p
      rw [Base.prefix_write]
      rcases hw : env.spiWriteRes (tr ++ [Ev.csLow]) pre with e1 | u1
      · rcases hch : env.csHighRes (tr ++ [Ev.csLow, Ev.spiWrite pre]) with e2 | u2 <;>
          simp [Base.csSetLow, Base.csSetHigh, Base.spiWrite, h, hw, hch,
            List.append_assoc, List.drop_left]
      · rcases hd : env.spiWriteRes (tr ++ [Ev.csLow, Ev.spiWrite pre]) data with e2 | u2 <;>
        rcases hch : env.csHighRes (tr ++ [Ev.csLow, Ev.spiWrite pre, Ev.spiWrite data]) with e3 | u3 <;>
          simp [Base.csSetLow, Base.csSetHigh, Base.spiWrite, h, hw, hd, hch,
            List.append_assoc, List.drop_left]
    have R : ∀ p : Ev → Bool,
        ((Base.prefix_read env pre data tr).2.drop tr.length).countP p =
          (match env.spiWriteRes (tr ++ [Ev.csLow]) pre with
            | Except.error _ => [Ev.csLow, Ev.spiWrite pre, Ev.csHigh]
            | Except.ok _ => [Ev.csLow, Ev.spiWrite pre, Ev.spiTransfer data, Ev.csHigh]).countP p := by
      intro p
      rw [Base.prefix_read]
      rcases hw : env.spiWriteRes (tr ++ [Ev.csLow]) pre with e1 | u1
      · rcases hch : env.csHighRes (tr ++ [Ev.csLow, Ev.spiWrite pre]) with e2 | u2 <;>
          simp [Base.csSetLow, Base.csSetHigh, Base.spiWrite, Base.spiTransfer, h, hw, hch,
            List.append_assoc, List.drop_left]
      · rcases ht : env.spiTransferRes (tr ++ [Ev.csLow, Ev.spiWrite pre]) data with e2 | rd <;>
        rcases hch : env.csHighRes (tr ++ [Ev.csLow, Ev.spiWrite pre, Ev.spiTransfer data]) with e3 | u3 <;>
          simp [Base.csSetLow, Base.csSetHigh, Base.spiWrite, Base.spiTransfer, h, hw, ht, hch,
            List.append_assoc, List.drop_left]
    refine ⟨⟨?_, ?_⟩, ?_, ?_⟩
    · rw [W Ev.isCsLow]
      rcases env.spiWriteRes (tr ++ [Ev.csLow]) pre <;>
        simp [List.countP_cons, Ev.isCsLow]
    · rw [W Ev.isCsHigh]
      rcases env.spiWriteRes (tr ++ [Ev.csLow]) pre <;>
        simp [List.countP_cons, Ev.isCsHigh]
    · rw [R Ev.isCsLow]
      rcases env.spiWriteRes (tr ++ [Ev.csLow]) pre <;>
        simp [List.countP_cons, Ev.isCsLow]
    · rw [R Ev.isCsHigh]
      rcases env.spiWriteRes (tr ++ [Ev.csLow]) pre <;>
        simp [List.countP_cons, Ev.isCsHigh]
  · intro e h
    constructor
    · rw [Base.prefix_write]
      simp [Base.csSetLow, h]
    · rw [Base.prefix_read]
      simp [Base.csSetLow, h]

/-- Witness for C1: with an all-succeeding environment both prefixed
operations deassert chip-select exactly once. -/
theorem c1_cs_pairing_witness :
    ((Base.prefix_write okEnv [7] [42] []).2.drop (0 : Nat)).countP Ev.isCsHigh = 1 ∧
    ((Base.prefix_read okEnv [7] [42] []).2.drop (0 : Nat)).countP Ev.isCsHigh = 1 :=
  ⟨((c1_cs_pairing Nat Nat okEnv [7] [42] []).1 rfl).1.2,
   ((c1_cs_pairing Nat Nat okEnv [7] [42] []).1 rfl).2.2⟩

/-- C6: `reset()` performs, in this exact order: reset pin low, 1 ms delay,
reset pin high, 10 ms delay; if driving the pin low fails, neither delay nor
the pin-high drive is attempted and the pin-origin failure is returned. -/
theorem c6_reset_order (SpiE PinE : Type) (env : Env SpiE PinE) (tr : List Ev) :
    (env.sdnLowRes tr = Except.ok () →
      env.sdnHighRes (tr ++ [Ev.sdnLow, Ev.delayMs 1]) = Except.ok () →
      Base.reset env tr =
        (Except.ok (), tr ++ [Ev.sdnLow, Ev.delayMs 1, Ev.sdnHigh, Ev.delayMs 10])) ∧
    (∀ e, env.sdnLowRes tr = Except.error e →
      Base.reset env tr = (Except.error (HalError.Pin e), tr ++ [Ev.sdnLow])) := by
  constructor
  · intro h1 h2
    simp [Base.reset, Base.sdnSetLow, Base.sdnSetHigh, h1, h2]
  · intro e h1
    simp [Base.reset, Base.sdnSetLow, h1]

/-- Witness for C6: concrete all-succeeding environment. -/
theorem c6_reset_order_witness :
    Base.reset okEnv [] =
      (Except.ok (), [Ev.sdnLow, Ev.delayMs 1, Ev.sdnHigh, Ev.delayMs 10]) :=
  (c6_reset_order Nat Nat okEnv []).1 rfl rfl

/-- C4: against a backend that records the raw calls it receives,
`read_regs` hands the raw layer the single framing byte `a & 0x7F` and
`write_regs` the single framing byte `(a & 0x7F) | 0x80` — for every address
byte, including ones with the top bit already set — while `read_buff` and
`write_buff` use the fixed op-codes `0x00` and `0x80`; addresses `0x00` and
`0x80` produce identical raw calls in each direction. -/
theorem c4_framing_bytes (a : Nat) (ha : a ≤ 255) (buf data : List Nat) :
    (Hal.read_regs probeHal a buf []).2 = [(false, [a &&& 0x7F], buf)] ∧
    (Hal.write_regs probeHal a data []).2 = [(true, [(a &&& 0x7F) ||| 0x80], data)] ∧
    (Hal.read_buff probeHal buf []).2 = [(false, [0x00], buf)] ∧
    (Hal.write_buff probeHal data []).2 = [(true, [0x80], data)] ∧
    (Hal.read_regs probeHal 0x00 buf []).2 = (Hal.read_regs probeHal 0x80 buf []).2 ∧
    (Hal.write_regs probeHal 0x00 data []).2 = (Hal.write_regs probeHal 0x80 data []).2 := by
  refine ⟨?_, ?_, ?_, ?_, rfl, rfl⟩
  · rw [Hal.read_regs]
    simp [probeHal]
  · rw [Hal.write_regs]
    simp [probeHal]
    exact or128_eq_and127_or128 a ha
  · rw [Hal.read_buff]
    simp [probeHal]
  · rw [Hal.write_buff]
    simp [probeHal]

/-- Witness for C4 at the address `0x85`, whose top bit is already set:
the write framing byte is `0x85` itself (`(0x85 & 0x7F) | 0x80`) and the
read framing byte is `0x05`. -/
theorem c4_framing_bytes_witness :
    (Hal.write_regs probeHal 0x85 [1] []).2 = [(true, [0x85], [1])] ∧
    (Hal.read_regs probeHal 0x85 [0] []).2 = [(false, [0x05], [0])] :=
  ⟨(c4_framing_bytes 0x85 (by norm_num) [0] [1]).2.1,
   (c4_framing_bytes 0x85 (by norm_num) [0] [1]).1⟩

/-- C8: against a backend whose register store is a simple byte array
(`mockHal`), for every store contents, every address in `[0,127]` and every
value, `write_reg(a, v)` succeeds and a following `read_reg(a)` succeeds and
returns `v`. -/
theorem c8_write_read_roundtrip (s : Nat → Nat) (a v : Nat) (ha : a ≤ 127) :
    (Hal.write_reg mockHal a v s).1 = Except.ok () ∧
    (Hal.read_reg mockHal a (Hal.write_reg mockHal a v s).2).1 = Except.ok v := by
  have h1 := or128_and127_of_le a ha
  have h2 := and127_of_le a ha
  have hw : Hal.write_reg mockHal a v s = (Except.ok (), Function.update s a v) := by
    rw [Hal.write_reg, Hal.write_regs]
    simp [mockHal, storeBytes, h1]
  refine ⟨by rw [hw], ?_⟩
  rw [hw]
  rw [Hal.read_reg, Hal.read_regs]
  simp [mockHal, h2, List.range_succ]
  rw [h2]
  exact Function.update_same a v s

/-- Witness for C8: writing `0xA7` to register `0x12` of an all-zero store
and reading it back yields `0xA7`. -/
theorem c8_write_read_roundtrip_witness :
    (Hal.read_reg mockHal 0x12 (Hal.write_reg mockHal 0x12 0xA7 (fun _ => 0)).2).1 =
      Except.ok 0xA7 :=
  (c8_write_read_roundtrip (fun _ => 0) 0x12 0xA7 (by norm_num)).2

/-- C3: for every backend and every address in `[0,127]`, mask and value,
`update_reg(a, m, v)` first reads the current value via `read_reg`; if that
read yields `existing`, it then writes exactly
`(existing & !m) | (v & m)` (u8 complement `!m = m ^^^ 0xFF`) to register
`a` via `write_reg`, and when that write succeeds it returns that same
written value (a failing read or write propagates its error unchanged). -/
theorem c3_update_reg_spec (σ ε : Type) (H : Hal σ ε) (reg mask value : Nat)
    (_hreg : reg ≤ 127) (s : σ) :
    (∀ e s1, H.read_reg reg s = (Except.error e, s1) →
       H.update_reg reg mask value s = (Except.error e, s1)) ∧
    (∀ existing s1, H.read_reg reg s = (Except.ok existing, s1) →
      (∀ e s2,
         H.write_reg reg ((existing &&& (mask ^^^ 0xFF)) ||| (value &&& mask)) s1 =
           (Except.error e, s2) →
         H.update_reg reg mask value s = (Except.error e, s2)) ∧
      (∀ s2,
         H.write_reg reg ((existing &&& (mask ^^^ 0xFF)) ||| (value &&& mask)) s1 =
           (Except.ok (), s2) →
         H.update_reg reg mask value s =
           (Except.ok ((existing &&& (mask ^^^ 0xFF)) ||| (value &&& mask)), s2))) := by
  constructor
  · intro e s1 h
    rw [Hal.update_reg, h]
  · intro existing s1 h
    constructor
    · intro e s2 h2
      rw [Hal.update_reg, h]
      simp only []
      rw [h2]
    · intro s2 h2
      rw [Hal.update_reg, h]
      simp only []
      rw [h2]

/-- Witness for C3: on the byte-array mock with every register holding
`0x3C`, `update_reg(0x07, 0xF0, 0xAB)` returns
`(0x3C & 0x0F) | (0xAB & 0xF0) = 0xAC`. -/
theorem c3_update_reg_spec_witness :
    (Hal.update_reg mockHal 7 0xF0 0xAB (fun _ => 0x3C)).1 = Except.ok 0xAC := by
  have h := ((c3_update_reg_spec (Nat → Nat) Empty mockHal 7 0xF0 0xAB (by norm_num)
      (fun _ => 0x3C)).2 0x3C (fun _ => 0x3C) rfl).2
      (Function.update (fun _ => 0x3C) 7 0xAC) rfl
  rw [h]
  norm_num
  decide

/-- C2, counterexample: the claim "when the prefixed transaction fails, the
transaction's error is what the operation returns" fails on the backend
`cexWaitHal`, where the transaction fails with error `5` but the second
`wait_busy` fails with error `7`: `read_regs` returns `7`, not `5` (the
second busy-wait's `?` overrides the transaction's error). -/
theorem c2_counterexample :
    (Hal.read_regs cexWaitHal 7 [0] 0).1.1 = Except.error 7 ∧
    (cexWaitHal.prefix_read [7 &&& 0x7F] [0] 1).1.1 = Except.error 5 ∧
    (Except.error 7 : Except Nat Unit) ≠ Except.error 5 := by
  refine ⟨rfl, rfl, by simp⟩

/-- C2 as amended: for every backend, `read_regs` and `write_regs` call
`wait_busy` before the prefixed transaction and again after it, the second
`wait_busy` executing even when the transaction failed; if the first
`wait_busy` fails the transaction is never attempted and that failure
propagates; when the transaction fails and the second `wait_busy` succeeds
the transaction's error is returned, and when the second `wait_busy` fails
its error is returned instead. -/
theorem c2_busy_bracketing (σ ε : Type) (H : Hal σ ε) (reg : Nat)
    (data : List Nat) (s : σ) :
    (∀ e s1, H.wait_busy s = (Except.error e, s1) →
       Hal.read_regs H reg data s = ((Except.error e, data), s1) ∧
       Hal.write_regs H reg data s = (Except.error e, s1)) ∧
    (∀ s1, H.wait_busy s = (Except.ok (), s1) →
      (∀ r d1 s2 wb2 s3,
         H.prefix_read [reg &&& 0x7F] data s1 = ((r, d1), s2) →
         H.wait_busy s2 = (wb2, s3) →
         Hal.read_regs H reg data s =
           ((match wb2 with
             | Except.error e => Except.error e
             | Except.ok _ => r, d1), s3)) ∧
      (∀ r s2 wb2 s3,
         H.prefix_write [reg ||| 0x80] data s1 = (r, s2) →
         H.wait_busy s2 = (wb2, s3) →
         Hal.write_regs H reg data s =
           ((match wb2 with
             | Except.error e => Except.error e
             | Except.ok _ => r), s3))) := by
  constructor
  · intro e s1 h
    constructor
    · rw [Hal.read_regs]
      simp only []
      rw [h]
    · rw [Hal.write_regs]
      simp only []
      rw [h]
  · intro s1 h
    constructor
    · intro r d1 s2 wb2 s3 hpr hwb2
      rw [Hal.read_regs]
      simp only [h, hpr, hwb2]
      rcases wb2 with e | u
      · rfl
      · rfl
    · intro r s2 wb2 s3 hpw hwb2
      rw [Hal.write_regs]
      simp only [h, hpw, hwb2]
      rcases wb2 with e | u
      · rfl
      · rfl

/-- Witness for C2 (amended): on the recording backend the bracketing
equations instantiate to a successful register read whose only raw call is
the prefixed read. -/
theorem c2_busy_bracketing_witness :
    Hal.read_regs probeHal 7 [0] [] =
      ((Except.ok (), [0]), [(false, [7], [0])]) :=
  ((c2_busy_bracketing (List (Bool × List Nat × List Nat)) Empty probeHal 7 [0] []).2
      [] rfl).1 (Except.ok ()) [0] [(false, [7], [0])] (Except.ok ())
      [(false, [7], [0])] rfl rfl

/-- C5, counterexample: when the bus write of the prefix byte fails (error
`5`) and the chip-select deassert also fails (error `9`), the value returned
is the pin-origin deassert failure, not the bus-origin error the claim
promises. -/
theorem c5_counterexample :
    spiAndCsHighFailEnv.spiWriteRes [Ev.csLow] [7] = Except.error 5 ∧
    (Base.prefix_write spiAndCsHighFailEnv [7] [42] []).1 =
      Except.error (HalError.Pin 9) ∧
    (Except.error (HalError.Pin 9) : Except (HalError Nat Nat Unit) Unit) ≠
      Except.error (HalError.Spi 5) := by
  refine ⟨rfl, rfl, by simp⟩

/-- C5 as amended: in `prefix_write` and `prefix_read`, if the bus write of
the prefix byte fails, the payload write (respectively the transfer) is
never attempted (the trace holds no payload event), chip-select deassertion
is still performed, the read buffer is untouched, and the returned error is
the bus-origin error carrying the prefix write's failure detail — provided
the deassertion succeeds; when the deassertion itself fails, its pin-origin
error is returned instead. -/
theorem c5_prefix_failure (SpiE PinE : Type) (env : Env SpiE PinE)
    (pre data : List Nat) (tr : List Ev) (e : SpiE)
    (h : env.csLowRes tr = Except.ok ())
    (hw : env.spiWriteRes (tr ++ [Ev.csLow]) pre = Except.error e) :
    (Base.prefix_write env pre data tr).2 = tr ++ [Ev.csLow, Ev.spiWrite pre, Ev.csHigh] ∧
    (Base.prefix_read env pre data tr).2 = tr ++ [Ev.csLow, Ev.spiWrite pre, Ev.csHigh] ∧
    (Base.prefix_read env pre data tr).1.2 = data ∧
    (env.csHighRes (tr ++ [Ev.csLow, Ev.spiWrite pre]) = Except.ok () →
      (Base.prefix_write env pre data tr).1 = Except.error (HalError.Spi e) ∧
      (Base.prefix_read env pre data tr).1.1 = Except.error (HalError.Spi e)) ∧
    (∀ e2, env.csHighRes (tr ++ [Ev.csLow, Ev.spiWrite pre]) = Except.error e2 →
      (Base.prefix_write env pre data tr).1 = Except.error (HalError.Pin e2) ∧
      (Base.prefix_read env pre data tr).1.1 = Except.error (HalError.Pin e2)) := by
  refine ⟨?_, ?_, ?_, ?_, ?_⟩
  · rw [Base.prefix_write]
    rcases hch : env.csHighRes (tr ++ [Ev.csLow, Ev.spiWrite pre]) with e2 | u2 <;>
      simp [Base.csSetLow, Base.csSetHigh, Base.spiWrite, h, hw, hch, List.append_assoc]
  · rw [Base.prefix_read]
    rcases hch : env.csHighRes (tr ++ [Ev.csLow, Ev.spiWrite pre]) with e2 | u2 <;>
      simp [Base.csSetLow, Base.csSetHigh, Base.spiWrite, h, hw, hch, List.append_assoc]
  · rw [Base.prefix_read]
    rcases hch : env.csHighRes (tr ++ [Ev.csLow, Ev.spiWrite pre]) with e2 | u2 <;>
      simp [Base.csSetLow, Base.csSetHigh, Base.spiWrite, h, hw, hch, List.append_assoc]
  · intro hch
    rw [Base.prefix_write, Base.prefix_read]
    constructor <;>
      simp [Base.csSetLow, Base.csSetHigh, Base.spiWrite, h, hw, hch, List.append_assoc]
  · intro e2 hch
    rw [Base.prefix_write, Base.prefix_read]
    constructor <;>
      simp [Base.csSetLow, Base.csSetHigh, Base.spiWrite, h, hw, hch, List.append_assoc]

/-- Witness for C5 (amended): with a failing bus and a working chip-select,
the prefix-write failure `5` is returned as the bus-origin error and the
trace shows CS assert, the prefix byte, and CS deassert only. -/
theorem c5_prefix_failure_witness :
    (Base.prefix_write spiFailEnv [7] [42] []).1 = Except.error (HalError.Spi 5) ∧
    (Base.prefix_write spiFailEnv [7] [42] []).2 =
      [Ev.csLow, Ev.spiWrite [7], Ev.csHigh] :=
  ⟨((c5_prefix_failure Nat Nat spiFailEnv [7] [42] [] 5 rfl rfl).2.2.2.1 rfl).1,
   (c5_prefix_failure Nat Nat spiFailEnv [7] [42] [] 5 rfl rfl).1⟩

/-- C7, counterexample: the conjunct "an error is never returned without the
deassertion having been attempted" fails on the chip-select-assert failure
path: when `set_low` fails, `prefix_write` returns an error while `set_high`
was never invoked. -/
theorem c7_counterexample :
    (Base.prefix_write csLowFailEnv [7] [42] []).1 = Except.error (HalError.Pin 3) ∧
    ((Base.prefix_write csLowFailEnv [7] [42] []).2).countP Ev.isCsHigh = 0 := by
  exact ⟨rfl, rfl⟩

/-- C7 as amended: once the chip-select assert has succeeded, the deassert
is the last peripheral call of the transaction (so no error is returned
without it having been attempted), and when the deassert itself fails after
the bus steps have run, its pin-origin failure is what the call returns,
overriding any earlier bus failure (the environment is arbitrary, so this
holds in particular when a bus step failed). -/
theorem c7_deassert_override (SpiE PinE : Type) (env : Env SpiE PinE)
    (pre data : List Nat) (tr : List Ev)
    (h : env.csLowRes tr = Except.ok ()) :
    (∃ t1, (Base.prefix_write env pre data tr).2 = t1 ++ [Ev.csHigh] ∧
      ∀ e2, env.csHighRes t1 = Except.error e2 →
        (Base.prefix_write env pre data tr).1 = Except.error (HalError.Pin e2)) ∧
    (∃ t2, (Base.prefix_read env pre data tr).2 = t2 ++ [Ev.csHigh] ∧
      ∀ e2, env.csHighRes t2 = Except.error e2 →
        (Base.prefix_read env pre data tr).1.1 = Except.error (HalError.Pin e2)) := by
  constructor
  · rcases hw : env.spiWriteRes (tr ++ [Ev.csLow]) pre with e1 | u1
    · refine ⟨tr ++ [Ev.csLow, Ev.spiWrite pre], ?_, ?_⟩
      · rw [Base.prefix_write]
        rcases hch : env.csHighRes (tr ++ [Ev.csLow, Ev.spiWrite pre]) with e2 | u2 <;>
          simp [Base.csSetLow, Base.csSetHigh, Base.spiWrite, h, hw, hch, List.append_assoc]
      · intro e2 hch
        rw [Base.prefix_write]
        simp [Base.csSetLow, Base.csSetHigh, Base.spiWrite, h, hw, hch, List.append_assoc]
    · refine ⟨tr ++ [Ev.csLow, Ev.spiWrite pre, Ev.spiWrite data], ?_, ?_⟩
      · rw [Base.prefix_write]
        rcases hd : env.spiWriteRes (tr ++ [Ev.csLow, Ev.spiWrite pre]) data with e2 | u2 <;>
        rcases hch : env.csHighRes (tr ++ [Ev.csLow, Ev.spiWrite pre, Ev.spiWrite data]) with e3 | u3 <;>
          simp [Base.csSetLow, Base.csSetHigh, Base.spiWrite, h, hw, hd, hch, List.append_assoc]
      · intro e2 hch
        rw [Base.prefix_write]
        simp [Base.csSetLow, Base.csSetHigh, Base.spiWrite, h, hw, hch, List.append_assoc]
  · rcases hw : env.spiWriteRes (tr ++ [Ev.csLow]) pre with e1 | u1
    · refine ⟨tr ++ [Ev.csLow, Ev.spiWrite pre], ?_, ?_⟩
      · rw [Base.prefix_read]
        rcases hch : env.csHighRes (tr ++ [Ev.csLow, Ev.spiWrite pre]) with e2 | u2 <;>
          simp [Base.csSetLow, Base.csSetHigh, Base.spiWrite, Base.spiTransfer,
            h, hw, hch, List.append_assoc]
      · intro e2 hch
        rw [Base.prefix_read]
        simp [Base.csSetLow, Base.csSetHigh, Base.spiWrite, Base.spiTransfer,
          h, hw, hch, List.append_assoc]
    · refine ⟨tr ++ [Ev.csLow, Ev.spiWrite pre, Ev.spiTransfer data], ?_, ?_⟩
      · rw [Base.prefix_read]
        rcases ht : env.spiTransferRes (tr ++ [Ev.csLow, Ev.spiWrite pre]) data with e2 | rd <;>
        rcases hch : env.csHighRes (tr ++ [Ev.csLow, Ev.spiWrite pre, Ev.spiTransfer data]) with e3 | u3 <;>
          simp [Base.csSetLow, Base.csSetHigh, Base.spiWrite, Base.spiTransfer,
            h, hw, ht, hch, List.append_assoc]
      · intro e2 hch
        rw [Base.prefix_read]
        rcases ht : env.spiTransferRes (tr ++ [Ev.csLow, Ev.spiWrite pre]) data with e3 | rd <;>
          simp [Base.csSetLow, Base.csSetHigh, Base.spiWrite, Base.spiTransfer,
            h, hw, ht, hch, List.append_assoc]

/-- Witness for C7 (amended): when only the deassert fails (error `9`), both
prefixed operations return the pin-origin deassert failure. -/
theorem c7_deassert_override_witness :
    (Base.prefix_write csHighFailEnv [7] [42] []).1 = Except.error (HalError.Pin 9) ∧
    (Base.prefix_read csHighFailEnv [7] [42] []).1.1 = Except.error (HalError.Pin 9) := by
  constructor
  · obtain ⟨t1, _, himp⟩ :=
      (c7_deassert_override Nat Nat csHighFailEnv [7] [42] [] rfl).1
    exact himp 9 rfl
  · obtain ⟨t2, _, himp⟩ :=
      (c7_deassert_override Nat Nat csHighFailEnv [7] [42] [] rfl).2
    exact himp 9 rfl

/-- Every error `reset` returns is pin-origin, never the timing variant. -/
theorem reset_error_no_delay (SpiE PinE : Type) (env : Env SpiE PinE)
    (tr : List Ev) :
    ∀ e, (Base.reset env tr).1 = Except.error e → e.isDelay = false := by
  intro e he
  rw [Base.reset] at he
  rcases h0 : env.sdnLowRes tr with e0 | u0
  · simp [Base.sdnSetLow, h0] at he
    subst he
    rfl
  · rcases h1 : env.sdnHighRes (tr ++ [Ev.sdnLow, Ev.delayMs 1]) with e1 | u1 <;>
      simp [Base.sdnSetLow, Base.sdnSetHigh, h0, h1, List.append_assoc] at he
    subst he
    rfl

/-- Every error `prefix_write` returns is bus- or pin-origin, never the
timing variant. -/
theorem pw_error_no_delay (SpiE PinE : Type) (env : Env SpiE PinE)
    (pre data : List Nat) (tr : List Ev) :
    ∀ e, (Base.prefix_write env pre data tr).1 = Except.error e →
      e.isDelay = false := by
  intro e he
  rw [Base.prefix_write] at he
  rcases h0 : env.csLowRes tr with e0 | u0
  · simp [Base.csSetLow, h0] at he
    subst he
    rfl
  · rcases hw : env.spiWriteRes (tr ++ [Ev.csLow]) pre with e1 | u1
    · rcases hch : env.csHighRes (tr ++ [Ev.csLow, Ev.spiWrite pre]) with e2 | u2 <;>
        simp [Base.csSetLow, Base.csSetHigh, Base.spiWrite, h0, hw, hch,
          List.append_assoc] at he <;>
        (subst he; rfl)
    · rcases hd : env.spiWriteRes (tr ++ [Ev.csLow, Ev.spiWrite pre]) data with e2 | u2 <;>
      rcases hch : env.csHighRes (tr ++ [Ev.csLow, Ev.spiWrite pre, Ev.spiWrite data]) with e3 | u3 <;>
        simp [Base.csSetLow, Base.csSetHigh, Base.spiWrite, h0, hw, hd, hch,
          List.append_assoc] at he <;>
        (subst he; rfl)

/-- Every error `prefix_read` returns is bus- or pin-origin, never the
timing variant. -/
theorem pr_error_no_delay (SpiE PinE : Type) (env : Env SpiE PinE)
    (pre data : List Nat) (tr : List Ev) :
    ∀ e, (Base.prefix_read env pre data tr).1.1 = Except.error e →
      e.isDelay = false := by
  intro e he
  rw [Base.prefix_read] at he
  rcases h0 : env.csLowRes tr with e0 | u0
  · simp [Base.csSetLow, h0] at he
    subst he
    rfl
  · rcases hw : env.spiWriteRes (tr ++ [Ev.csLow]) pre with e1 | u1
    · rcases hch : env.csHighRes (tr ++ [Ev.csLow, Ev.spiWrite pre]) with e2 | u2 <;>
        simp [Base.csSetLow, Base.csSetHigh, Base.spiWrite, Base.spiTransfer, h0, hw, hch,
          List.append_assoc] at he <;>
        (subst he; rfl)
    · rcases ht : env.spiTransferRes (tr ++ [Ev.csLow, Ev.spiWrite pre]) data with e2 | rd <;>
      rcases hch : env.csHighRes (tr ++ [Ev.csLow, Ev.spiWrite pre, Ev.spiTransfer data]) with e3 | u3 <;>
        simp [Base.csSetLow, Base.csSetHigh, Base.spiWrite, Base.spiTransfer, h0, hw, ht, hch,
          List.append_assoc] at he <;>
        (subst he; rfl)

/-- C9: every error the `Base` adapter's operations produce is the bus-origin
(`Spi`) or pin-origin (`Pin`) variant, never the timing-origin (`Delay`)
variant, and `wait_busy`, `delay_ms` and `delay_us` always return success. -/
theorem c9_no_delay_origin (SpiE PinE : Type) (env : Env SpiE PinE)
    (pre data : List Nat) (tr : List Ev) (ms us : Nat) :
    @Base.wait_busy SpiE PinE tr = (Except.ok (), tr) ∧
    (@Base.delay_ms SpiE PinE ms tr).1 = Except.ok () ∧
    (@Base.delay_us SpiE PinE us tr).1 = Except.ok () ∧
    (∀ e, (Base.reset env tr).1 = Except.error e → e.isDelay = false) ∧
    (∀ e, (Base.prefix_write env pre data tr).1 = Except.error e → e.isDelay = false) ∧
    (∀ e, (Base.prefix_read env pre data tr).1.1 = Except.error e → e.isDelay = false) :=
  ⟨rfl, rfl, rfl, reset_error_no_delay SpiE PinE env tr,
   pw_error_no_delay SpiE PinE env pre data tr,
   pr_error_no_delay SpiE PinE env pre data tr⟩

/-- Witness for C9: a failing bus yields the bus-origin error `Spi 5`, whose
timing-origin test is `false`. -/
theorem c9_no_delay_origin_witness :
    (HalError.Spi 5 : HalError Nat Nat Unit).isDelay = false :=
  (c9_no_delay_origin Nat Nat spiFailEnv [7] [42] [] 1 2).2.2.2.2.1
    (HalError.Spi 5) rfl

/-- C10: in `prefix_read`, the caller's buffer is overwritten exactly when
the full-duplex transfer succeeds: on a chip-select assert failure, a
prefix-write failure, or a transfer failure the buffer keeps its prior
contents, while on a successful transfer the buffer holds the read bytes —
including when the call then returns an error because the chip-select
deassert failed. -/
theorem c10_buffer_overwrite (SpiE PinE : Type) (env : Env SpiE PinE)
    (pre data : List Nat) (tr : List Ev) :
    (∀ e, env.csLowRes tr = Except.error e →
      (Base.prefix_read env pre data tr).1.2 = data) ∧
    (env.csLowRes tr = Except.ok () →
      (∀ e, env.spiWriteRes (tr ++ [Ev.csLow]) pre = Except.error e →
        (Base.prefix_read env pre data tr).1.2 = data) ∧
      (env.spiWriteRes (tr ++ [Ev.csLow]) pre = Except.ok () →
        (∀ e, env.spiTransferRes (tr ++ [Ev.csLow, Ev.spiWrite pre]) data = Except.error e →
          (Base.prefix_read env pre data tr).1.2 = data) ∧
        (∀ read, env.spiTransferRes (tr ++ [Ev.csLow, Ev.spiWrite pre]) data = Except.ok read →
          (Base.prefix_read env pre data tr).1.2 = read ∧
          (∀ e2, env.csHighRes (tr ++ [Ev.csLow, Ev.spiWrite pre, Ev.spiTransfer data]) =
              Except.error e2 →
            (Base.prefix_read env pre data tr).1.1 = Except.error (HalError.Pin e2) ∧
            (Base.prefix_read env pre data tr).1.2 = read)))) := by
  constructor
  · intro e h0
    rw [Base.prefix_read]
    simp [Base.csSetLow, h0]
  · intro h0
    constructor
    · intro e hw
      rw [Base.prefix_read]
      rcases hch : env.csHighRes (tr ++ [Ev.csLow, Ev.spiWrite pre]) with e2 | u2 <;>
        simp [Base.csSetLow, Base.csSetHigh, Base.spiWrite, h0, hw, hch, List.append_assoc]
    · intro hw
      constructor
      · intro e ht
        rw [Base.prefix_read]
        rcases hch : env.csHighRes (tr ++ [Ev.csLow, Ev.spiWrite pre, Ev.spiTransfer data]) with e2 | u2 <;>
          simp [Base.csSetLow, Base.csSetHigh, Base.spiWrite, Base.spiTransfer,
            h0, hw, ht, hch, List.append_assoc]
      · intro read ht
        constructor
        · rw [Base.prefix_read]
          rcases hch : env.csHighRes (tr ++ [Ev.csLow, Ev.spiWrite pre, Ev.spiTransfer data]) with e2 | u2 <;>
            simp [Base.csSetLow, Base.csSetHigh, Base.spiWrite, Base.spiTransfer,
              h0, hw, ht, hch, List.append_assoc]
        · intro e2 hch
          rw [Base.prefix_read]
          constructor <;>
            simp [Base.csSetLow, Base.csSetHigh, Base.spiWrite, Base.spiTransfer,
              h0, hw, ht, hch, List.append_assoc]

/-- Witness for C10: with a failing deassert and a transfer that reads back
`0xEE` per byte, the buffer holds the read bytes while the call reports the
pin-origin deassert failure. -/
theorem c10_buffer_overwrite_witness :
    (Base.prefix_read csHighFailEnv [7] [1, 2] []).1.2 = [0xEE, 0xEE] ∧
    (Base.prefix_read csHighFailEnv [7] [1, 2] []).1.1 =
      Except.error (HalError.Pin 9) := by
  have h := ((((c10_buffer_overwrite Nat Nat csHighFailEnv [7] [1, 2] []).2 rfl).2
      rfl).2 [0xEE, 0xEE] rfl)
  exact ⟨h.1, (h.2 9 rfl).1⟩
